import Mathlib

/-!
Shallow embedding of the packaging script `src/python/setup.py` of the
prismaid repository, together with theorems settling the spec claims.

The script resolves a version string from version control (with a fallback),
reads a README file, and emits package metadata.  We model the environment
(subprocess results, host OS string, README contents) explicitly and embed
the script as a function from that environment to either an error (an
uncaught Python exception aborting the run) or the emitted metadata record.
-/

namespace Prismaid

/-- Errors raised by `subprocess.check_output`:
`calledProcessError` for a non-zero exit status of the invoked command,
`fileNotFoundError` for an unavailable executable (Python raises
`FileNotFoundError`, which is not a `CalledProcessError`). -/
inductive SubprocErr where
  | calledProcessError
  | fileNotFoundError
deriving DecidableEq, Repr

/-- The environment a run of the script observes: the outcome of the two
git invocations, the host OS as reported by `platform.system()`, and the
contents of `../README.md` (`none` when the file is absent/unreadable). -/
structure ScriptEnv where
  describeTags : Except SubprocErr String
  revParseShort : Except SubprocErr String
  hostSystem : String
  readme : Option String

/-- Python `str.strip()` whitespace test on the ASCII whitespace characters
relevant here (space, tab, newline, carriage return, vertical tab, form feed). -/
def isPySpace (c : Char) : Bool :=
  c = ' ' || c = '\t' || c = '\n' || c = '\r' || c = '\x0b' || c = '\x0c'

/-- Python `str.strip()` on the character list: drop whitespace from both ends. -/
def pyStripList (l : List Char) : List Char :=
  (((l.dropWhile isPySpace).reverse.dropWhile isPySpace)).reverse

/-- Python `str.strip()`. -/
def pyStrip (s : String) : String :=
  ⟨pyStripList s.data⟩

/-- Embedding of `get_version` (setup.py lines 7-14):
`try:` run `git describe --tags --abbrev=0`, decode and strip;
`except subprocess.CalledProcessError:` run `git rev-parse --short HEAD`,
decode and strip.  Only `CalledProcessError` is caught; any other exception
(such as `FileNotFoundError` when git is unavailable) propagates, as does
any exception raised by the fallback command itself. -/
def get_version (env : ScriptEnv) : Except SubprocErr String :=
  match env.describeTags with
  | .ok out => .ok (pyStrip out)
  | .error .calledProcessError => env.revParseShort.map pyStrip
  | .error e => .error e

/-- The static list `shared_libs` (setup.py lines 20-25). -/
def shared_libs : List String :=
  [ "libprismaid_linux_amd64.so",
    "libprismaid_windows_amd64.dll",
    "libprismaid_darwin_amd64.dylib" ]

/-- The metadata record handed to `setup(...)` (setup.py lines 31-46).
`packages_where` records the `where` argument of `find_packages`. -/
structure SetupMetadata where
  name : String
  version : String
  description : String
  long_description : String
  long_description_content_type : String
  packages_where : String
  package_dir : List (String × String)
  package_data : List (String × List String)
  include_package_data : Bool
  classifiers : List String
  install_requires : List String
deriving DecidableEq, Repr

/-- Errors that abort the whole script: an uncaught subprocess exception
from version resolution, or the `FileNotFoundError` from `open("../README.md")`. -/
inductive ScriptError where
  | subprocess (e : SubprocErr)
  | readmeNotFound
deriving DecidableEq, Repr

/-- The `system = platform.system()` binding (setup.py line 20).  It is
assigned but never used downstream, exactly as in the source. -/
def system (env : ScriptEnv) : String :=
  env.hostSystem

/-- The literal metadata record built by the `setup(...)` call
(setup.py lines 31-46) from the resolved version and README text. -/
def mkMetadata (package_version long_description : String) : SetupMetadata :=
  { name := "prismaid"
    version := package_version
    description := "PrismAId library package"
    long_description := long_description
    long_description_content_type := "text/markdown"
    packages_where := "package"
    package_dir := [("", "package")]
    package_data := [("", shared_libs)]
    include_package_data := true
    classifiers :=
      [ "Programming Language :: Python :: 3",
        "Operating System :: OS Independent" ]
    install_requires := [] }

/-- Embedding of the whole script run: compute `package_version` via
`get_version` (line 17), read `platform.system()` (line 20, unused),
open and read `../README.md` (lines 28-29, `FileNotFoundError` if absent),
then call `setup(...)` with the literal metadata (lines 31-46). -/
def runSetup (env : ScriptEnv) : Except ScriptError SetupMetadata :=
  match get_version env with
  | .error e => .error (.subprocess e)
  | .ok package_version =>
    match env.readme with
    | none => .error .readmeNotFound
    | some long_description => .ok (mkMetadata package_version long_description)

/-! ### Concrete environments used in witnesses and counterexamples -/

/-- A repository with a tag `v0.9.1`, built on a Linux host. -/
def envTagged : ScriptEnv :=
  ⟨.ok "v0.9.1\n", .ok "abc1234\n", "Linux", some "PrismAId\n"⟩

/-- The same repository state built on a Windows host. -/
def envWindows : ScriptEnv :=
  ⟨.ok "v0.9.1\n", .ok "abc1234\n", "Windows", some "PrismAId\n"⟩

/-- A repository with no tags whose short HEAD hash is `abc1234`. -/
def envNoTagA : ScriptEnv :=
  ⟨.error .calledProcessError, .ok "abc1234\n", "Linux", some "PrismAId\n"⟩

/-- A repository with no tags whose short HEAD hash is `def5678`. -/
def envNoTagB : ScriptEnv :=
  ⟨.error .calledProcessError, .ok "def5678\n", "Linux", some "PrismAId\n"⟩

/-- An environment where the git executable is unavailable: both
subprocess calls raise `FileNotFoundError`. -/
def envNoGit : ScriptEnv :=
  ⟨.error .fileNotFoundError, .error .fileNotFoundError, "Linux", some "PrismAId\n"⟩

/-- An environment where both git commands exit non-zero (for example a
freshly initialised repository with no commits at all). -/
def envBothFail : ScriptEnv :=
  ⟨.error .calledProcessError, .error .calledProcessError, "Linux", some "PrismAId\n"⟩

/-- An environment where the describe command prints only whitespace. -/
def envWS : ScriptEnv :=
  ⟨.ok "\n", .ok "abc1234\n", "Linux", some "x"⟩

/-- A tagged repository with the README file absent. -/
def envNoReadme : ScriptEnv :=
  ⟨.ok "v1.0.0\n", .ok "abc1234\n", "Linux", none⟩

/-! ### Helper lemmas about `pyStrip` -/

theorem dropWhile_self_idem (p : Char → Bool) (l : List Char) :
    (l.dropWhile p).dropWhile p = l.dropWhile p := by
  induction l with
  | nil => rfl
  | cons a t ih =>
    by_cases h : p a
    · simp [List.dropWhile_cons, h, ih]
    · simp [List.dropWhile_cons, h]

theorem dropWhile_len_le (p : Char → Bool) (l : List Char) :
    (l.dropWhile p).length ≤ l.length := by
  induction l with
  | nil => exact Nat.le_refl _
  | cons a t ih =>
    by_cases h : p a
    · rw [List.dropWhile_cons_of_pos h]
      exact Nat.le_trans ih (Nat.le_succ _)
    · rw [List.dropWhile_cons_of_neg h]

theorem dropWhile_head_false (p : Char → Bool) (a : Char) (l : List Char)
    (h : (a :: l).dropWhile p = a :: l) : p a = false := by
  by_cases hp : p a
  · exfalso
    rw [List.dropWhile_cons_of_pos hp] at h
    have hlen : (l.dropWhile p).length ≤ l.length := dropWhile_len_le p l
    rw [h] at hlen
    simp at hlen
  · exact Bool.of_not_eq_true hp

theorem dropWhile_append_clean (p : Char → Bool) (l1 l2 : List Char)
    (h : (l1 ++ l2).dropWhile p = l1 ++ l2) : l1.dropWhile p = l1 := by
  cases l1 with
  | nil => rfl
  | cons a t =>
    have ha : p a = false := by
      have := dropWhile_head_false p a (t ++ l2) (by simpa using h)
      exact this
    simp [List.dropWhile_cons, ha]

theorem pyStripList_idem (l : List Char) :
    pyStripList (pyStripList l) = pyStripList l := by
  unfold pyStripList
  set p := isPySpace with hp
  set x := l.dropWhile p with hx
  have hxclean : x.dropWhile p = x := dropWhile_self_idem p l
  set m := (x.reverse.dropWhile p).reverse with hm
  have hsplit : x = m ++ (x.reverse.takeWhile p).reverse := by
    have h1 : x.reverse.takeWhile p ++ x.reverse.dropWhile p = x.reverse :=
      List.takeWhile_append_dropWhile p x.reverse
    calc x = x.reverse.reverse := (List.reverse_reverse x).symm
      _ = (x.reverse.takeWhile p ++ x.reverse.dropWhile p).reverse := by rw [h1]
      _ = (x.reverse.dropWhile p).reverse ++ (x.reverse.takeWhile p).reverse := by
            rw [List.reverse_append]
      _ = m ++ (x.reverse.takeWhile p).reverse := rfl
  have hmclean : m.dropWhile p = m := by
    apply dropWhile_append_clean p m ((x.reverse.takeWhile p).reverse)
    rw [← hsplit]
    exact hxclean
  rw [hmclean, List.reverse_reverse, dropWhile_self_idem p x.reverse]

theorem pyStrip_idem (s : String) : pyStrip (pyStrip s) = pyStrip s := by
  unfold pyStrip
  exact congrArg String.mk (pyStripList_idem s.data)

theorem takeWhile_mem_true (p : Char → Bool) (l : List Char) (c : Char)
    (h : c ∈ l.takeWhile p) : p c = true :=
  List.mem_takeWhile_imp h

theorem pyStripList_eq_nil_all_space (p : Char → Bool) :
    ∀ l : List Char,
      ((((l.dropWhile p).reverse.dropWhile p)).reverse = []) →
      ∀ c ∈ l, p c = true := by
  intro l h c hc
  have h1 : (l.dropWhile p).reverse.dropWhile p = [] := by
    simpa using h
  have h2 : ∀ d ∈ (l.dropWhile p).reverse, p d := by
    exact List.dropWhile_eq_nil_iff.mp h1
  have h3 : ∀ d ∈ l.dropWhile p, p d := by
    intro d hd
    exact h2 d (List.mem_reverse.mpr hd)
  have hsplit : l.takeWhile p ++ l.dropWhile p = l :=
    List.takeWhile_append_dropWhile p l
  rw [← hsplit] at hc
  rcases List.mem_append.mp hc with h4 | h4
  · exact List.mem_takeWhile_imp h4
  · exact h3 c h4

theorem pyStrip_ne_empty (s : String)
    (h : ∃ c ∈ s.data, isPySpace c = false) : pyStrip s ≠ "" := by
  intro hcontra
  obtain ⟨c, hc, hcf⟩ := h
  have hdata : pyStripList s.data = [] := by
    have := congrArg String.data hcontra
    simpa [pyStrip] using this
  have hall := pyStripList_eq_nil_all_space isPySpace s.data hdata c hc
  rw [hall] at hcf
  exact Bool.noConfusion hcf

/-- Inversion: a successful run determines the emitted record completely
from the resolved version and the README contents. -/
theorem runSetup_ok_shape (env : ScriptEnv) (m : SetupMetadata)
    (h : runSetup env = .ok m) :
    ∃ v d, get_version env = .ok v ∧ env.readme = some d ∧ m = mkMetadata v d := by
  cases hg : get_version env with
  | error e => simp [runSetup, hg] at h
  | ok v =>
    cases hr : env.readme with
    | none => simp [runSetup, hg, hr] at h
    | some d =>
      simp [runSetup, hg, hr] at h
      exact ⟨v, d, rfl, rfl, h.symm⟩

/-! ### Claim theorems -/

/-- C1 (counterexample): in a repository with no tags, `get_version` does
NOT return a fixed default string: two no-tag repositories with different
short commit hashes resolve to different versions, each equal to its hash. -/
theorem C1_counterexample :
    envNoTagA.describeTags = .error .calledProcessError ∧
    envNoTagB.describeTags = .error .calledProcessError ∧
    get_version envNoTagA = .ok "abc1234" ∧
    get_version envNoTagB = .ok "def5678" ∧
    ("abc1234" : String) ≠ "def5678" :=
  ⟨rfl, rfl, rfl, rfl, by decide⟩

/-- C1 (amended): in a repository with no tags (the describe command exits
non-zero) where `git rev-parse --short HEAD` succeeds, the resolved version
equals the short commit hash, i.e. that command's output with surrounding
whitespace stripped — not a fixed constant. -/
theorem C1_no_tags_fallback (env : ScriptEnv) (hash : String)
    (h1 : env.describeTags = .error .calledProcessError)
    (h2 : env.revParseShort = .ok hash) :
    get_version env = .ok (pyStrip hash) := by
  simp [get_version, h1, h2, Except.map]

/-- Witness for C1: a concrete no-tag repository resolves to its hash. -/
theorem C1_no_tags_fallback_witness :
    get_version envNoTagA = .ok (pyStrip "abc1234\n") :=
  C1_no_tags_fallback envNoTagA "abc1234\n" rfl rfl

/-- C2 (counterexample): the failure mode "version-control command
unavailable" (`FileNotFoundError`) is not caught by the
`except subprocess.CalledProcessError` clause, so `get_version` does not
return normally with a fallback value: the error propagates. -/
theorem C2_counterexample :
    envNoGit.describeTags = .error .fileNotFoundError ∧
    get_version envNoGit = .error .fileNotFoundError ∧
    runSetup envNoGit = .error (.subprocess .fileNotFoundError) :=
  ⟨rfl, rfl, rfl⟩

/-- C2 (amended): only a non-zero exit of the describe command
(`CalledProcessError`) is recovered, by falling back to the rev-parse
command; a `FileNotFoundError` (command unavailable) propagates, and a
failure of the fallback command itself propagates as well, aborting the
packaging run. -/
theorem C2_error_recovery (env : ScriptEnv) :
    (env.describeTags = .error .fileNotFoundError →
      get_version env = .error .fileNotFoundError) ∧
    (∀ e, env.describeTags = .error .calledProcessError →
      env.revParseShort = .error e → get_version env = .error e) ∧
    (∀ h, env.describeTags = .error .calledProcessError →
      env.revParseShort = .ok h → get_version env = .ok (pyStrip h)) := by
  refine ⟨fun h1 => ?_, fun e h1 h2 => ?_, fun h h1 h2 => ?_⟩
  · simp [get_version, h1]
  · simp [get_version, h1, h2, Except.map]
  · simp [get_version, h1, h2, Except.map]

/-- Witness for C2: the three branches at concrete environments. -/
theorem C2_error_recovery_witness :
    get_version envNoGit = .error .fileNotFoundError ∧
    get_version envBothFail = .error .calledProcessError ∧
    get_version envNoTagA = .ok (pyStrip "abc1234\n") :=
  ⟨(C2_error_recovery envNoGit).1 rfl,
   (C2_error_recovery envBothFail).2.1 .calledProcessError rfl rfl,
   (C2_error_recovery envNoTagA).2.2 "abc1234\n" rfl rfl⟩

/-- C3 (confirmed): when the describe command succeeds, the resolved
version is its output with surrounding whitespace stripped. -/
theorem C3_tagged_version (env : ScriptEnv) (out : String)
    (h : env.describeTags = .ok out) :
    get_version env = .ok (pyStrip out) := by
  simp [get_version, h]

/-- Witness for C3: the tag `v0.9.1` is resolved as the version. -/
theorem C3_tagged_version_witness :
    get_version envTagged = .ok (pyStrip "v0.9.1\n") ∧
    pyStrip "v0.9.1\n" = "v0.9.1" :=
  ⟨C3_tagged_version envTagged "v0.9.1\n" rfl, by decide⟩

/-- C4 (confirmed): on a run that reaches the README read (version
resolution succeeded), an absent `../README.md` raises `FileNotFoundError`
and the packaging run aborts with that error; no recovery is attempted. -/
theorem C4_readme_missing_aborts (env : ScriptEnv) (v : String)
    (hv : get_version env = .ok v) (hr : env.readme = none) :
    runSetup env = .error .readmeNotFound := by
  simp [runSetup, hv, hr]

/-- Witness for C4: a tagged repository with no README aborts. -/
theorem C4_readme_missing_aborts_witness :
    runSetup envNoReadme = .error .readmeNotFound :=
  C4_readme_missing_aborts envNoReadme "v1.0.0" rfl rfl

/-- C5 (confirmed): for any two host environments whose runs emit
metadata, the `package_data` artifact list is identical, and it is exactly
the three fixed filenames; it does not depend on the host-OS input. -/
theorem C5_package_data_const (env1 env2 : ScriptEnv) (m1 m2 : SetupMetadata)
    (h1 : runSetup env1 = .ok m1) (h2 : runSetup env2 = .ok m2) :
    m1.package_data = m2.package_data ∧
    m1.package_data =
      [("", [ "libprismaid_linux_amd64.so",
              "libprismaid_windows_amd64.dll",
              "libprismaid_darwin_amd64.dylib" ])] := by
  obtain ⟨v1, d1, -, -, hm1⟩ := runSetup_ok_shape env1 m1 h1
  obtain ⟨v2, d2, -, -, hm2⟩ := runSetup_ok_shape env2 m2 h2
  rw [hm1, hm2]
  exact ⟨rfl, rfl⟩

/-- Witness for C5: a Linux host and a Windows host emit the same list. -/
theorem C5_package_data_const_witness :
    (mkMetadata "v0.9.1" "PrismAId\n").package_data =
      (mkMetadata "v0.9.1" "PrismAId\n").package_data ∧
    (mkMetadata "v0.9.1" "PrismAId\n").package_data =
      [("", [ "libprismaid_linux_amd64.so",
              "libprismaid_windows_amd64.dll",
              "libprismaid_darwin_amd64.dylib" ])] :=
  C5_package_data_const envTagged envWindows
    (mkMetadata "v0.9.1" "PrismAId\n") (mkMetadata "v0.9.1" "PrismAId\n") rfl rfl

/-- C6 (confirmed): when the README read succeeds, the emitted
`long_description` equals the full file contents, unmodified. -/
theorem C6_long_description_is_readme (env : ScriptEnv) (text : String)
    (m : SetupMetadata) (hr : env.readme = some text)
    (h : runSetup env = .ok m) :
    m.long_description = text := by
  obtain ⟨v, d, -, hr2, hm⟩ := runSetup_ok_shape env m h
  rw [hr] at hr2
  injection hr2 with hd
  rw [hm]
  exact hd.symm

/-- Witness for C6: the README text appears verbatim in the metadata. -/
theorem C6_long_description_is_readme_witness :
    (mkMetadata "v0.9.1" "PrismAId\n").long_description = "PrismAId\n" :=
  C6_long_description_is_readme envTagged "PrismAId\n"
    (mkMetadata "v0.9.1" "PrismAId\n") rfl rfl

/-- C7 (confirmed): across any two emitting runs, the fields `name`,
`description` and `classifiers` coincide and equal the fixed literals. -/
theorem C7_const_metadata (env1 env2 : ScriptEnv) (m1 m2 : SetupMetadata)
    (h1 : runSetup env1 = .ok m1) (h2 : runSetup env2 = .ok m2) :
    m1.name = m2.name ∧ m1.description = m2.description ∧
    m1.classifiers = m2.classifiers ∧
    m1.name = "prismaid" ∧ m1.description = "PrismAId library package" ∧
    m1.classifiers =
      [ "Programming Language :: Python :: 3",
        "Operating System :: OS Independent" ] := by
  obtain ⟨v1, d1, -, -, hm1⟩ := runSetup_ok_shape env1 m1 h1
  obtain ⟨v2, d2, -, -, hm2⟩ := runSetup_ok_shape env2 m2 h2
  rw [hm1, hm2]
  exact ⟨rfl, rfl, rfl, rfl, rfl, rfl⟩

/-- Witness for C7: two concrete runs with different repository state and
host OS agree on the constant fields. -/
theorem C7_const_metadata_witness :
    (mkMetadata "v0.9.1" "PrismAId\n").name =
      (mkMetadata "abc1234" "PrismAId\n").name ∧
    (mkMetadata "v0.9.1" "PrismAId\n").description =
      (mkMetadata "abc1234" "PrismAId\n").description ∧
    (mkMetadata "v0.9.1" "PrismAId\n").classifiers =
      (mkMetadata "abc1234" "PrismAId\n").classifiers ∧
    (mkMetadata "v0.9.1" "PrismAId\n").name = "prismaid" ∧
    (mkMetadata "v0.9.1" "PrismAId\n").description = "PrismAId library package" ∧
    (mkMetadata "v0.9.1" "PrismAId\n").classifiers =
      [ "Programming Language :: Python :: 3",
        "Operating System :: OS Independent" ] :=
  C7_const_metadata envTagged envNoTagA
    (mkMetadata "v0.9.1" "PrismAId\n") (mkMetadata "abc1234" "PrismAId\n") rfl rfl

/-- C8 (counterexample): a run whose describe command prints only
whitespace reaches the metadata-emission step with `version = ""`, an
empty string. -/
theorem C8_counterexample :
    runSetup envWS = .ok (mkMetadata "" "x") ∧
    (mkMetadata "" "x").version = "" :=
  ⟨rfl, rfl⟩

/-- C8 (amended): the emitted version equals the stripped output of the
git command that produced it, and it is non-empty provided that output
contains at least one non-whitespace character (as real tag names and
commit hashes always do). -/
theorem C8_version_nonempty (env : ScriptEnv) (m : SetupMetadata) (out : String)
    (hrun : runSetup env = .ok m)
    (hsrc : env.describeTags = .ok out ∨
      (env.describeTags = .error .calledProcessError ∧
       env.revParseShort = .ok out))
    (hc : ∃ c ∈ out.data, isPySpace c = false) :
    m.version = pyStrip out ∧ m.version ≠ "" := by
  obtain ⟨v, d, hg, -, hm⟩ := runSetup_ok_shape env m hrun
  have hv : v = pyStrip out := by
    rcases hsrc with h | ⟨ha, hb⟩
    · rw [C3_tagged_version env out h] at hg
      exact (Except.ok.inj hg).symm
    · rw [C1_no_tags_fallback env out ha hb] at hg
      exact (Except.ok.inj hg).symm
  have hver : m.version = pyStrip out := by
    rw [hm]
    exact hv
  exact ⟨hver, by rw [hver]; exact pyStrip_ne_empty out hc⟩

/-- Witness for C8: a tagged run has the non-empty version `v0.9.1`. -/
theorem C8_version_nonempty_witness :
    (mkMetadata "v0.9.1" "PrismAId\n").version = pyStrip "v0.9.1\n" ∧
    (mkMetadata "v0.9.1" "PrismAId\n").version ≠ "" :=
  C8_version_nonempty envTagged (mkMetadata "v0.9.1" "PrismAId\n") "v0.9.1\n"
    rfl (Or.inl rfl) ⟨'v', by decide, by decide⟩

/-- C9 (confirmed): every string returned by `get_version` is already
stripped, on both the tag branch and the fallback branch: applying
whitespace-strip to it is the identity. -/
theorem C9_strip_identity (env : ScriptEnv) (v : String)
    (h : get_version env = .ok v) : pyStrip v = v := by
  cases hd : env.describeTags with
  | ok out =>
    simp [get_version, hd] at h
    rw [← h]
    exact pyStrip_idem out
  | error e =>
    cases e with
    | calledProcessError =>
      cases hr : env.revParseShort with
      | ok out =>
        simp [get_version, hd, hr, Except.map] at h
        rw [← h]
        exact pyStrip_idem out
      | error e2 => simp [get_version, hd, hr, Except.map] at h
    | fileNotFoundError => simp [get_version, hd] at h

/-- Witness for C9: strip is the identity on a concrete resolved version. -/
theorem C9_strip_identity_witness :
    pyStrip "v0.9.1" = "v0.9.1" :=
  C9_strip_identity envTagged "v0.9.1" rfl

/-- C10 (confirmed): every emitted record declares an empty
`install_requires` list, maps the root package to the `package` directory
in `package_dir`, and roots package discovery at `package`. -/
theorem C10_requires_and_dirs (env : ScriptEnv) (m : SetupMetadata)
    (h : runSetup env = .ok m) :
    m.install_requires = [] ∧ m.package_dir = [("", "package")] ∧
    m.packages_where = "package" := by
  obtain ⟨v, d, -, -, hm⟩ := runSetup_ok_shape env m h
  rw [hm]
  exact ⟨rfl, rfl, rfl⟩

/-- Witness for C10: the fields at a concrete run. -/
theorem C10_requires_and_dirs_witness :
    (mkMetadata "v0.9.1" "PrismAId\n").install_requires = [] ∧
    (mkMetadata "v0.9.1" "PrismAId\n").package_dir = [("", "package")] ∧
    (mkMetadata "v0.9.1" "PrismAId\n").packages_where = "package" :=
  C10_requires_and_dirs envTagged (mkMetadata "v0.9.1" "PrismAId\n") rfl

end Prismaid
